import Mathlib

/-!
Verification development for the inter-server relay bot.

Shallow embedding of the repository sources:
  src/config.py            - configuration constants
  src/utils/filters.py     - ContentFilter (pure text classification)
  src/database.py          - Database (sqlite-backed repository layer)
  src/cogs/interserver.py  - relay engine (on_message / _forward_message)
                             and the connect-create command

Conventions used throughout:
  - SQLite tables are modeled as Lean lists kept in rowid (insertion)
    order.  A SELECT without ORDER BY is modeled as scanning that list
    front to back (SQLite returns rows in rowid order for these queries,
    both under a full scan and under the declared indexes, whose trailing
    tiebreaker is the rowid).
  - Timestamps are seconds as Nat; CURRENT_TIMESTAMP becomes an explicit
    now argument.
  - Python text handling is modeled on List Char; str.lower is modeled
    for ASCII (every claim below is settled on ASCII inputs; the Cyrillic
    pattern constants in the source are already lowercase).
-/

namespace InterBot

/-! ## Configuration (src/config.py) with its hard-coded defaults. -/

namespace Config

/-- Config.PREFIX (default "!"). -/
def cmd_pfx : String := "!"

def SPAM_THRESHOLD : Nat := 5

def SPAM_TIME_WINDOW : Nat := 10

def MAX_CONNECTIONS_PER_SERVER : Nat := 10

def MAX_FILE_SIZE : Nat := 8388608

def BLOCKED_DOMAINS : List String :=
  ["bit.ly", "tinyurl.com", "grabify.link", "iplogger.org",
   "2no.co", "cutt.ly", "discord.gift", "discordnitro.info"]

/-- Config.PROFANITY_WORDS is the empty list in the source. -/
def PROFANITY_WORDS : List String := []

end Config

/-! ## Content filter (src/utils/filters.py)

Each compiled regular expression of ContentFilter is translated into an
executable decision procedure with the same matching semantics. -/

/-- str.startswith, on the character lists. -/
def strStartsWith (s pre : String) : Bool := pre.data.isPrefixOf s.data

/-- ASCII lowercasing of one character (models str.lower on ASCII). -/
def asciiLower (c : Char) : Char :=
  if 'A' ≤ c ∧ c ≤ 'Z' then Char.ofNat (c.toNat + 32) else c

/-- Lowercase a character list. -/
def lowerChars (cs : List Char) : List Char := cs.map asciiLower

/-- Word character for the regex metachar backslash-b / backslash-w:
ASCII letters, digits, underscore; non-ASCII codepoints are treated as
word characters (Python re uses full Unicode word classes; the inputs the
claims are settled on are ASCII, and the Cyrillic letters occurring in
the source patterns are word characters in both readings). -/
def isWordCh (c : Char) : Bool :=
  ('a' ≤ c && c ≤ 'z') || ('A' ≤ c && c ≤ 'Z') ||
  ('0' ≤ c && c ≤ '9') || c = '_' || decide (127 < c.toNat)

def isDigitCh (c : Char) : Bool := '0' ≤ c && c ≤ '9'

/-- ASCII alphanumeric, the class [A-Za-z0-9]. -/
def isAlnumCh (c : Char) : Bool :=
  ('a' ≤ c && c ≤ 'z') || ('A' ≤ c && c ≤ 'Z') || ('0' ≤ c && c ≤ '9')

/-- Consume the literal pat at the head of cs, comparing
case-insensitively (pat is given lowercase); returns the rest. -/
def dropLitCI (pat : List Char) (cs : List Char) : Option (List Char) :=
  match pat, cs with
  | [], rest => some rest
  | _ :: _, [] => none
  | p :: ps, c :: cs2 => if asciiLower c = p then dropLitCI ps cs2 else none

/-- Substring test (re.search of a literal). -/
def containsSub (needle : List Char) : List Char → Bool
  | [] => needle.isEmpty
  | c :: tl => needle.isPrefixOf (c :: tl) || containsSub needle tl

/-- The character class of ContentFilter.url_pattern.  The original class
(with re.IGNORECASE) is [a-zA-Z] | [0-9] | [$-_@.&+] | [!*\(),] | %hh;
the range 0x24..0x5F already contains the digits, the uppercase letters
and every listed punctuation character except the exclamation mark, and
IGNORECASE makes the uppercase range also match lowercase. -/
def urlChar (c : Char) : Bool :=
  ('$' ≤ c && c ≤ '_') || ('a' ≤ c && c ≤ 'z') || c = '!'

/-- Length of the url_pattern match starting exactly here, if any:
http, optional s (greedy, with backtracking), ://, then one or more
urlChar (greedy). -/
def urlMatchLen (cs : List Char) : Option Nat :=
  match dropLitCI ['h','t','t','p'] cs with
  | none => none
  | some r1 =>
    let tail (pre : Nat) (r : List Char) : Option Nat :=
      match dropLitCI [':','/','/'] r with
      | none => none
      | some r3 =>
        let body := r3.takeWhile urlChar
        if body.isEmpty then none else some (pre + 3 + body.length)
    match dropLitCI ['s'] r1 with
    | some r2 =>
      match tail 5 r2 with
      | some n => some n
      | none => tail 4 r1
    | none => tail 4 r1

/-- re.findall of url_pattern: scan left to right, emit non-overlapping
matches, resume after each match.  Fueled by the text length (every step
consumes at least one character). -/
def urlFindAllAux : Nat → List Char → List (List Char)
  | 0, _ => []
  | _ + 1, [] => []
  | fuel + 1, c :: tl =>
    match urlMatchLen (c :: tl) with
    | some n => (c :: tl).take n :: urlFindAllAux fuel ((c :: tl).drop n)
    | none => urlFindAllAux fuel tl

/-- ContentFilter.extract_urls / the findall inside contains_blocked_links. -/
def extract_urls (text : String) : List String :=
  (urlFindAllAux text.data.length text.data).map String.mk

/-- urllib.parse.urlparse, modeled for scheme://netloc/path?query
strings, the only shape url_pattern can produce (netloc runs to the
first /, ? or #; path to the first ? or #).  Input is already lowered. -/
def parseUrlLower (cs : List Char) : List Char × List Char :=
  let rest :=
    match dropLitCI ['h','t','t','p'] cs with
    | some r1 =>
      match dropLitCI ['s',':','/','/'] r1 with
      | some r => r
      | none =>
        match dropLitCI [':','/','/'] r1 with
        | some r => r
        | none => cs
    | none => cs
  let netloc := rest.takeWhile (fun c => !(c = '/' || c = '?' || c = '#'))
  let after := rest.drop netloc.length
  let path := after.takeWhile (fun c => !(c = '?' || c = '#'))
  (netloc, path)

/-- ContentFilter.suspicious_domains: Config.BLOCKED_DOMAINS plus the
hard-coded additions (the source builds a set; membership below is
unaffected by the duplicated entries). -/
def suspicious_domains : List String :=
  Config.BLOCKED_DOMAINS ++
  ["discordnitro.info", "discord-nitro.org", "discordgift.site",
   "steamcommunity-net.org", "steemcommunity.org", "stemcommunity.org",
   "grabify.link", "iplogger.org", "iplogger.com", "iplogger.net",
   "2no.co", "yip.su", "iplis.ru", "iplogger.co", "ip-api.io",
   "bmwforum.co", "leancoding.co", "quickmessage.io", "spottyfly.com"]

/-- fake_nitro_pattern search: the regex
discord(?:\.(?:gift|nitro|app)|app\.com/gifts?) hits iff one of these
four literals occurs (the optional s adds nothing to existence). -/
def fakeNitroHit (full : List Char) : Bool :=
  containsSub "discord.gift".data full ||
  containsSub "discord.nitro".data full ||
  containsSub "discord.app".data full ||
  containsSub "discordapp.com/gift".data full

/-- Consume exactly n characters satisfying p; returns the rest. -/
def takeExact (p : Char → Bool) : Nat → List Char → Option (List Char)
  | 0, cs => some cs
  | _ + 1, [] => none
  | n + 1, c :: tl => if p c then takeExact p n tl else none

/-- One octet group [0-9]{1,3} followed by the continuation k; the three
possible greedy lengths are tried like the backtracking engine does. -/
def octetThen (k : List Char → Bool) (cs : List Char) : Bool :=
  [3, 2, 1].any fun n =>
    match takeExact isDigitCh n cs with
    | some rest => k rest
    | none => false

/-- ip_pattern match starting here: (?:[0-9]{1,3}\.){3}[0-9]{1,3}
followed by a word boundary (the leading boundary is the caller's job). -/
def ipTokenAt (cs : List Char) : Bool :=
  octetThen (fun r1 =>
    match r1 with
    | '.' :: r1b =>
      octetThen (fun r2 =>
        match r2 with
        | '.' :: r2b =>
          octetThen (fun r3 =>
            match r3 with
            | '.' :: r3b =>
              octetThen (fun r4 =>
                match r4 with
                | [] => true
                | c :: _ => !isWordCh c) r3b
            | _ => false) r2b
        | _ => false) r1b
    | _ => false) cs

/-- re.search of ip_pattern: some position with a word boundary before
it starts an IPv4-shaped token. -/
def ipSearchAux : Option Char → List Char → Bool
  | _, [] => false
  | prev, c :: tl =>
    ((match prev with | none => true | some p => !isWordCh p) &&
      ipTokenAt (c :: tl)) ||
    ipSearchAux (some c) tl

def ipSearch (cs : List Char) : Bool := ipSearchAux none cs

/-- ContentFilter._is_suspicious_url, check for check in source order.
The source wraps the body in try/except returning False on a parse
error; urlparse cannot fail on the scheme://... strings url_pattern
produces, so that branch is unreachable here. -/
def is_suspicious_url (url : String) : Bool :=
  let full := lowerChars url.data
  let parsed := parseUrlLower full
  let netloc := parsed.1
  let domain := if "www.".data.isPrefixOf netloc then netloc.drop 4 else netloc
  let domStr := String.mk domain
  if suspicious_domains.contains domStr then true
  else if suspicious_domains.any (fun b => ("." ++ b).data.isSuffixOf domain) then true
  else if fakeNitroHit full then true
  else if ipSearch domain then true
  else if domain.length < 6 && domain.any isDigitCh then true
  else ["/logger", "/grab", "/track", "/ip"].any
    (fun p => containsSub p.data parsed.2)

/-- ContentFilter.contains_blocked_links. -/
def contains_blocked_links (text : String) : Bool :=
  if text = "" then false
  else (extract_urls text).any is_suspicious_url

/-- ContentFilter.contains_profanity; the word list is a parameter (the
source reads Config.PROFANITY_WORDS, which is empty). -/
def contains_profanity (words : List String) (text : String) : Bool :=
  if text = "" || words.isEmpty then false
  else
    let tl := lowerChars text.data
    words.any fun w => containsSub (lowerChars w.data) tl

/-- Count of mention_pattern findall matches: non-overlapping
@everyone / @here occurrences, scanned left to right over the lowered
text, alternation tried in source order. -/
def mentionCountAux : Nat → List Char → Nat
  | 0, _ => 0
  | _ + 1, [] => 0
  | fuel + 1, c :: tl =>
    if "@everyone".data.isPrefixOf (c :: tl) then
      mentionCountAux fuel ((c :: tl).drop 9) + 1
    else if "@here".data.isPrefixOf (c :: tl) then
      mentionCountAux fuel ((c :: tl).drop 5) + 1
    else mentionCountAux fuel tl

/-- ContentFilter.contains_mass_mentions (the source default threshold
is 3; callers here always pass it explicitly). -/
def contains_mass_mentions (text : String) (threshold : Nat) : Bool :=
  if text = "" then false
  else threshold ≤ mentionCountAux text.data.length (lowerChars text.data)

/-- The class of word characters and the dash, on ASCII. -/
def isWordDashCh (c : Char) : Bool := isWordCh c || c = '-'

/-- token_pattern match starting here (IGNORECASE; text already
lowered): [mn][a-z0-9]{23}\.[\w-]{6}\.[\w-]{27}  or  mfa\.[\w-]{84}. -/
def tokenAt (cs : List Char) : Bool :=
  (match cs with
   | c :: r =>
     (c = 'm' || c = 'n') &&
     (match takeExact isAlnumCh 23 r with
      | some ('.' :: r2) =>
        (match takeExact isWordDashCh 6 r2 with
         | some ('.' :: r3) =>
           (match takeExact isWordDashCh 27 r3 with
            | some _ => true
            | none => false)
         | _ => false)
      | _ => false)
   | [] => false) ||
  (match dropLitCI ['m','f','a','.'] cs with
   | some r =>
     (match takeExact isWordDashCh 84 r with
      | some _ => true
      | none => false)
   | none => false)

def tokenSearch : List Char → Bool
  | [] => false
  | c :: tl => tokenAt (c :: tl) || tokenSearch tl

/-- ContentFilter.contains_discord_token. -/
def contains_discord_token (text : String) : Bool :=
  if text = "" then false else tokenSearch (lowerChars text.data)

/-- The head of cs repeated for the next n characters ((.)\1{n,} core). -/
def repeatedNext (c : Char) (n : Nat) (cs : List Char) : Bool :=
  decide (n ≤ cs.length) && (cs.take n).all (· = c)

/-- Spam pattern (.)\1{10,}: some non-newline character immediately
followed by at least ten copies of itself. -/
def hasCharRun11 : List Char → Bool
  | [] => false
  | c :: tl => (c ≠ '\n' && repeatedNext c 10 tl) || hasCharRun11 tl

/-- g repeated n times at the head of cs. -/
def copiesAt (g : List Char) : Nat → List Char → Bool
  | 0, _ => true
  | n + 1, cs => g.isPrefixOf cs && copiesAt g n (cs.drop g.length)

/-- Spam pattern (.{1,5})\1{5,} anchored here: a group of one to five
non-newline characters followed by at least five more copies. -/
def shortRepeatAt (cs : List Char) : Bool :=
  [1, 2, 3, 4, 5].any fun L =>
    let g := cs.take L
    decide (g.length = L) && g.all (· ≠ '\n') && copiesAt g 5 (cs.drop L)

def shortRepeatSearch : List Char → Bool
  | [] => false
  | c :: tl => shortRepeatAt (c :: tl) || shortRepeatSearch tl

/-- Continuation of the lure patterns: .*(w2a|w2b|...) - some second
keyword further right with no newline in between (the dot does not
match a newline). -/
def lureTail (ws2 : List String) : List Char → Bool
  | [] => false
  | c :: tl =>
    ws2.any (fun w => w.data.isPrefixOf (c :: tl)) ||
    (c ≠ '\n' && lureTail ws2 tl)

/-- re.search of a lure pattern \b(w1a|w1b).*(w2a|w2b): scan for a first
keyword starting at a word boundary, then look right for a second
keyword.  The text is already lowered; keyword lists are lowercase. -/
def lureSearchAux (ws1 ws2 : List String) : Option Char → List Char → Bool
  | _, [] => false
  | prev, c :: tl =>
    ((match prev with | none => true | some p => !isWordCh p) && isWordCh c &&
      ws1.any (fun w =>
        match dropLitCI w.data (c :: tl) with
        | some rest => lureTail ws2 rest
        | none => false)) ||
    lureSearchAux ws1 ws2 (some c) tl

def lureSearch (ws1 ws2 : List String) (cs : List Char) : Bool :=
  lureSearchAux ws1 ws2 none cs

/-- ContentFilter.is_spam_pattern: the five patterns in source order
over the lowered text. -/
def is_spam_pattern (text : String) : Bool :=
  if text = "" then false
  else
    let tl := lowerChars text.data
    hasCharRun11 tl ||
    shortRepeatSearch tl ||
    lureSearch ["free", "бесплатн"] ["nitro", "discord"] tl ||
    lureSearch ["win", "выигра"] ["money", "деньг", "приз"] tl ||
    lureSearch ["click", "кликн", "переход"] ["link", "ссылк"] tl

/-- ContentFilter.filter_message: returns (is_allowed, reasons).  The
first four checks are gated by their caller flags; the mass-mention
check is not gated by any flag in the source. -/
def filter_message (text : String)
    (check_profanity check_links check_spam check_tokens : Bool) :
    Bool × List String :=
  if text = "" then (true, [])
  else
    let reasons :=
      (if check_profanity && contains_profanity Config.PROFANITY_WORDS text then
        ["Нецензурная лексика"] else []) ++
      (if check_links && contains_blocked_links text then
        ["Подозрительные ссылки"] else []) ++
      (if check_spam && is_spam_pattern text then
        ["Спам-паттерн"] else []) ++
      (if contains_mass_mentions text 3 then
        ["Массовые упоминания"] else []) ++
      (if check_tokens && contains_discord_token text then
        ["Discord токен"] else [])
    (reasons.isEmpty, reasons)

/-! ## Database (src/database.py)

The four tables, modeled as lists in rowid order, plus the AUTOINCREMENT
counters. -/

/-- A row of the connections table. -/
structure ConnectionRow where
  id : Nat
  server1_id : Nat
  channel1_id : Nat
  server2_id : Nat
  channel2_id : Nat
  connection_name : String
  created_at : Nat
  created_by : Nat
  is_active : Bool
  description : Option String
  deriving DecidableEq, Repr

/-- A row of the message_history table. -/
structure MessageHistoryRow where
  id : Nat
  original_message_id : Nat
  forwarded_message_id : Nat
  author_id : Nat
  connection_id : Nat
  timestamp : Nat
  content_hash : Option String
  deriving DecidableEq, Repr

/-- A row of the server_settings table (cmd_pfx is the source column
named after the command prefix). -/
structure ServerSettingsRow where
  server_id : Nat
  cmd_pfx : String
  enabled : Bool
  mod_role_id : Option Nat
  log_channel_id : Option Nat
  spam_protection : Bool
  profanity_filter : Bool
  auto_delete_commands : Bool
  webhook_notifications : Bool
  created_at : Nat
  updated_at : Nat
  deriving DecidableEq, Repr

/-- A row of the spam_tracking table. -/
structure SpamRow where
  id : Nat
  user_id : Nat
  server_id : Nat
  channel_id : Nat
  message_count : Nat
  first_message_time : Nat
  last_message_time : Nat
  is_blocked : Bool
  deriving DecidableEq, Repr

/-- The persistent store. -/
structure DbState where
  connections : List ConnectionRow
  message_history : List MessageHistoryRow
  server_settings : List ServerSettingsRow
  spam_tracking : List SpamRow
  next_conn_id : Nat
  next_msg_id : Nat
  next_spam_id : Nat
  deriving DecidableEq, Repr

def emptyDb : DbState :=
  { connections := [], message_history := [], server_settings := [],
    spam_tracking := [], next_conn_id := 1, next_msg_id := 1, next_spam_id := 1 }

/-- Database.create_connection: INSERT and return lastrowid. -/
def create_connection (db : DbState) (now : Nat)
    (server1_id channel1_id server2_id channel2_id : Nat)
    (name : String) (created_by : Nat) (description : Option String) :
    Nat × DbState :=
  let row : ConnectionRow :=
    { id := db.next_conn_id, server1_id := server1_id,
      channel1_id := channel1_id, server2_id := server2_id,
      channel2_id := channel2_id, connection_name := name,
      created_at := now, created_by := created_by, is_active := true,
      description := description }
  (db.next_conn_id,
   { db with connections := db.connections ++ [row],
             next_conn_id := db.next_conn_id + 1 })

/-- Database.get_connection_by_id: SELECT ... WHERE id = ? AND is_active. -/
def get_connection_by_id (db : DbState) (connection_id : Nat) :
    Option ConnectionRow :=
  db.connections.find? fun r => r.id = connection_id && r.is_active

/-- Database.get_connections_by_channel: SELECT ... WHERE
(channel1_id = ? OR channel2_id = ?) AND is_active. -/
def get_connections_by_channel (db : DbState) (channel_id : Nat) :
    List ConnectionRow :=
  db.connections.filter fun r =>
    (r.channel1_id = channel_id || r.channel2_id = channel_id) && r.is_active

/-- Database.delete_connection: UPDATE connections SET is_active = FALSE
WHERE id = ?; returns rowcount > 0.  SQLite reports as changed every row
matched by the WHERE clause, even when the stored value is already
FALSE, so the rowcount here is the number of rows whose id matches. -/
def delete_connection (db : DbState) (connection_id : Nat) :
    Bool × DbState :=
  let matched := db.connections.countP fun r => r.id = connection_id
  (decide (0 < matched),
   { db with connections := db.connections.map fun r =>
       if r.id = connection_id then { r with is_active := false } else r })

/-- Database.get_server_connection_count: COUNT of active rows where
either endpoint server matches. -/
def get_server_connection_count (db : DbState) (server_id : Nat) : Nat :=
  db.connections.countP fun r =>
    (r.server1_id = server_id || r.server2_id = server_id) && r.is_active

/-- Database.log_message: INSERT into message_history. -/
def log_message (db : DbState) (now : Nat)
    (original_msg_id forwarded_msg_id author_id connection_id : Nat)
    (content_hash : Option String) : DbState :=
  let row : MessageHistoryRow :=
    { id := db.next_msg_id, original_message_id := original_msg_id,
      forwarded_message_id := forwarded_msg_id, author_id := author_id,
      connection_id := connection_id, timestamp := now,
      content_hash := content_hash }
  { db with message_history := db.message_history ++ [row],
            next_msg_id := db.next_msg_id + 1 }

/-- The DEFAULT column values of server_settings. -/
def defaultSettings (server_id now : Nat) : ServerSettingsRow :=
  { server_id := server_id, cmd_pfx := "!", enabled := true,
    mod_role_id := none, log_channel_id := none, spam_protection := true,
    profanity_filter := true, auto_delete_commands := false,
    webhook_notifications := false, created_at := now, updated_at := now }

/-- Database.create_server_settings: INSERT OR IGNORE (server_id is the
primary key: a no-op when the row exists). -/
def create_server_settings (db : DbState) (now server_id : Nat) : DbState :=
  if db.server_settings.any (fun r => r.server_id = server_id) then db
  else { db with server_settings := db.server_settings ++ [defaultSettings server_id now] }

/-- Database.get_server_settings: SELECT; on a miss create the default
row and re-select (the lazy creation mutates the store). -/
def get_server_settings (db : DbState) (now server_id : Nat) :
    ServerSettingsRow × DbState :=
  match db.server_settings.find? (fun r => r.server_id = server_id) with
  | some r => (r, db)
  | none =>
    (defaultSettings server_id now,
     { db with server_settings := db.server_settings ++ [defaultSettings server_id now] })

/-- The setting keys admin.py allows in update_server_setting, with
their typed values (the source interpolates the validated key name into
the UPDATE statement). -/
inductive SettingUpdate where
  | setPfx (v : String)
  | setEnabled (v : Bool)
  | setSpamProtection (v : Bool)
  | setProfanityFilter (v : Bool)
  | setAutoDeleteCommands (v : Bool)
  | setWebhookNotifications (v : Bool)
  deriving DecidableEq, Repr

/-- Database.update_server_setting: UPDATE server_settings SET key = ?,
updated_at = CURRENT_TIMESTAMP WHERE server_id = ?. -/
def update_server_setting (db : DbState) (now server_id : Nat)
    (u : SettingUpdate) : DbState :=
  { db with server_settings := db.server_settings.map fun r =>
      if r.server_id = server_id then
        let r2 :=
          match u with
          | .setPfx v => { r with cmd_pfx := v }
          | .setEnabled v => { r with enabled := v }
          | .setSpamProtection v => { r with spam_protection := v }
          | .setProfanityFilter v => { r with profanity_filter := v }
          | .setAutoDeleteCommands v => { r with auto_delete_commands := v }
          | .setWebhookNotifications v => { r with webhook_notifications := v }
        { r2 with updated_at := now }
      else r }

/-- The (user, server, channel) key of spam_tracking. -/
def spamKeyMatch (u s c : Nat) (r : SpamRow) : Bool :=
  r.user_id = u && r.server_id = s && r.channel_id = c

/-- datetime(last_message_time, +WINDOW seconds) > now. -/
def spamLive (now : Nat) (r : SpamRow) : Bool :=
  decide (now < r.last_message_time + Config.SPAM_TIME_WINDOW)

/-- Database.track_message_spam.  Notes mirroring the source:
  - the first SELECT filters by the key and the live window and takes
    the first row in rowid order;
  - the UPDATE branch recomputes the count from that row and writes it
    to every row matching the key (its WHERE clause has no window);
  - the INSERT OR REPLACE branch is a plain append: spam_tracking has no
    unique constraint on the key, only the autoincrement primary key, so
    no conflict can arise;
  - the final SELECT has neither the window filter nor an ORDER BY and
    returns the first key-matching row in rowid order. -/
def track_message_spam (db : DbState) (now u s c : Nat) :
    (Nat × Bool) × DbState :=
  let existing := db.spam_tracking.find? fun r =>
    spamKeyMatch u s c r && spamLive now r
  let db1 :=
    match existing with
    | some r0 =>
      let new_count := r0.message_count + 1
      { db with spam_tracking := db.spam_tracking.map fun r =>
          if spamKeyMatch u s c r then
            { r with message_count := new_count, last_message_time := now,
                     is_blocked := decide (Config.SPAM_THRESHOLD ≤ new_count) }
          else r }
    | none =>
      let fresh : SpamRow :=
        { id := db.next_spam_id, user_id := u, server_id := s,
          channel_id := c, message_count := 1, first_message_time := now,
          last_message_time := now, is_blocked := false }
      { db with spam_tracking := db.spam_tracking ++ [fresh],
                next_spam_id := db.next_spam_id + 1 }
  match db1.spam_tracking.find? (fun r => spamKeyMatch u s c r) with
  | some r => ((r.message_count, r.is_blocked), db1)
  | none => ((1, false), db1)

/-- Database.deactivate_server_connections: UPDATE ... SET
is_active = FALSE WHERE server1_id = ? OR server2_id = ?. -/
def deactivate_server_connections (db : DbState) (server_id : Nat) : DbState :=
  { db with connections := db.connections.map fun r =>
      if r.server1_id = server_id || r.server2_id = server_id then
        { r with is_active := false }
      else r }

/-- Database.cleanup_old_data: DELETE FROM spam_tracking WHERE
datetime(last_message_time, +days) < now; the message_history DELETE in
the source is commented out and the other tables are untouched. -/
def cleanup_old_data (db : DbState) (now days : Nat) : DbState :=
  { db with spam_tracking := db.spam_tracking.filter fun r =>
      !decide (r.last_message_time + days * 86400 < now) }

/-! ## Relay engine (src/cogs/interserver.py)

The chat platform is the external collaborator: channel lookup, the send
permission, the outcome of channel.send and the MD5 digest function are
parameters of the model.  Everything the relay does besides returning
the updated store is recorded in an effect trace. -/

/-- One inbound attachment as delivered by the gateway. -/
structure Attachment where
  size : Nat
  filename : String
  deriving DecidableEq, Repr

/-- One inbound message event. -/
structure Message where
  id : Nat
  author_id : Nat
  author_bot : Bool
  author_display_name : String
  content : String
  attachments : List Attachment
  channel_id : Nat
  guild_id : Nat
  guild_name : String
  created_at : Nat
  /-- message.type == discord.MessageType.default -/
  is_default_type : Bool
  deriving DecidableEq, Repr

/-- Outcome of target_channel.send: success with the new message id, or
one of the exceptions the source catches (discord.Forbidden,
discord.HTTPException, anything else). -/
inductive SendResult where
  | ok (message_id : Nat)
  | forbidden
  | httpError
  | otherError
  deriving DecidableEq, Repr

def SendResult.isOk : SendResult → Bool
  | .ok _ => true
  | _ => false

/-- The external chat platform and runtime, as consumed by the relay. -/
structure Env where
  /-- bot.get_channel returns a channel object (not None). -/
  channelExists : Nat → Bool
  /-- permissions_for(...).send_messages in that channel. -/
  canSend : Nat → Bool
  /-- what channel.send does in that channel. -/
  sendResult : Nat → SendResult
  /-- hashlib.md5(...).hexdigest(), uninterpreted: only its presence in a
  log row matters to the properties below. -/
  md5Hex : String → String

/-- The embed built for a forwarded message. -/
structure ForwardEmbed where
  description : String
  author_name : String
  footer : String
  timestamp : Nat
  deriving DecidableEq, Repr

/-- Observable actions of the relay and of the command handlers. -/
inductive Effect where
  /-- db.track_message_spam was invoked. -/
  | dbTrackSpam (user_id server_id channel_id : Nat)
  /-- db.get_connections_by_channel was invoked. -/
  | dbGetConnections (channel_id : Nat)
  /-- target_channel.send was entered. -/
  | sendAttempt (channel_id : Nat) (embed : ForwardEmbed)
  /-- target_channel.send returned a forwarded message. -/
  | sendSuccess (channel_id message_id : Nat)
  /-- db.log_message recorded provenance. -/
  | logWrite (connection_id : Nat) (content_hash : Option String)
  /-- logger.warning - operator log only, invisible to chat users. -/
  | warnLog (text : String)
  /-- logger.error - operator log only, invisible to chat users. -/
  | errorLog (text : String)
  /-- a message posted back to the invoking/source channel (ctx.send);
  the relay path never produces this. -/
  | notifySender (channel_id : Nat) (text : String)
  deriving DecidableEq, Repr

def Effect.isSendAttempt : Effect → Bool
  | .sendAttempt _ _ => true
  | _ => false

def Effect.isSendSuccess : Effect → Bool
  | .sendSuccess _ _ => true
  | _ => false

def Effect.isNotifySender : Effect → Bool
  | .notifySender _ _ => true
  | _ => false

/-- Effects a chat user can observe (messages appearing in channels), as
opposed to operator-side log lines. -/
def Effect.isUserVisible : Effect → Bool
  | .sendAttempt _ _ => true
  | .sendSuccess _ _ => true
  | .notifySender _ _ => true
  | _ => false

/-- The opposite endpoint of a connection for a message arriving in
msg.channel_id. -/
def targetOf (msg : Message) (conn : ConnectionRow) : Nat :=
  if conn.channel1_id = msg.channel_id then conn.channel2_id
  else conn.channel1_id

/-- The embed _forward_message builds. -/
def mkEmbed (msg : Message) (conn : ConnectionRow) : ForwardEmbed :=
  { description :=
      if msg.content = "" then "*Сообщение без текста*" else msg.content,
    author_name := msg.author_display_name ++ " (" ++ msg.guild_name ++ ")",
    footer := "Соединение: " ++ conn.connection_name ++ " • ID: " ++
      toString conn.id,
    timestamp := msg.created_at }

/-- The attachment loop of _forward_message.  interserver.py never
imports io, so for every attachment within the size limit the
io.BytesIO call raises NameError inside the per-attachment try; the
except clause logs a warning and appends nothing, and oversized
attachments are skipped silently; the files list is therefore always
empty and only the warnings remain. -/
def attachmentWarnings (msg : Message) : List Effect :=
  msg.attachments.filterMap fun a =>
    if a.size ≤ Config.MAX_FILE_SIZE then
      some (Effect.warnLog ("Не удалось прочитать файл " ++ a.filename))
    else none

/-- InterServer._forward_message.  The whole body runs inside
try/except discord.Forbidden / discord.HTTPException / Exception, so
every outcome is a normal return; the three except arms only log. -/
def forward_message (env : Env) (db : DbState) (now : Nat)
    (msg : Message) (conn : ConnectionRow) : DbState × List Effect :=
  let target := targetOf msg conn
  if !env.channelExists target then
    (db, [Effect.warnLog ("Целевой канал " ++ toString target ++ " недоступен")])
  else if !env.canSend target then
    (db, [])
  else
    let warns := attachmentWarnings msg
    let attempt := Effect.sendAttempt target (mkEmbed msg conn)
    match env.sendResult target with
    | .ok fid =>
      let content_hash :=
        if msg.content = "" then none else some (env.md5Hex msg.content)
      let db2 := log_message db now msg.id fid msg.author_id conn.id content_hash
      (db2, warns ++ [attempt, Effect.sendSuccess target fid,
                      Effect.logWrite conn.id content_hash])
    | .forbidden =>
      (db, warns ++ [attempt, Effect.warnLog "Нет прав для отправки"])
    | .httpError =>
      (db, warns ++ [attempt, Effect.errorLog "Ошибка HTTP при пересылке"])
    | .otherError =>
      (db, warns ++ [attempt, Effect.errorLog "Неожиданная ошибка при пересылке"])

/-- The per-connection loop at the end of on_message: each connection is
awaited in turn, the store threading through. -/
def forward_all (env : Env) (db : DbState) (now : Nat) (msg : Message) :
    List ConnectionRow → DbState × List Effect
  | [] => (db, [])
  | conn :: rest =>
    let r1 := forward_message env db now msg conn
    let r2 := forward_all env r1.1 now msg rest
    (r2.1, r1.2 ++ r2.2)

/-- The trace of one forward, which does not depend on the store. -/
def forward_trace (env : Env) (now : Nat) (msg : Message)
    (conn : ConnectionRow) : List Effect :=
  (forward_message env emptyDb now msg conn).2

/-- Steps 5-8 of on_message: connection lookup, the two content checks
the relay actually runs (profanity when enabled, blocked links always),
then the forward loop. -/
def relay_resolve (env : Env) (db : DbState) (now : Nat)
    (st : ServerSettingsRow) (msg : Message) (tr0 : List Effect) :
    DbState × List Effect :=
  let conns := get_connections_by_channel db msg.channel_id
  let tr := tr0 ++ [Effect.dbGetConnections msg.channel_id]
  if conns.isEmpty then (db, tr)
  else if st.profanity_filter && contains_profanity Config.PROFANITY_WORDS msg.content then
    (db, tr)
  else if contains_blocked_links msg.content then (db, tr)
  else
    let r := forward_all env db now msg conns
    (r.1, tr ++ r.2)

/-- InterServer.on_message: the relay pipeline for one inbound event. -/
def on_message (env : Env) (db : DbState) (now : Nat) (msg : Message) :
    DbState × List Effect :=
  if msg.author_bot || !msg.is_default_type then (db, [])
  else if strStartsWith msg.content Config.cmd_pfx then (db, [])
  else
    let st := (get_server_settings db now msg.guild_id).1
    let db1 := (get_server_settings db now msg.guild_id).2
    if !st.enabled then (db1, [])
    else if st.spam_protection then
      let res := (track_message_spam db1 now msg.author_id msg.guild_id msg.channel_id).1
      let db2 := (track_message_spam db1 now msg.author_id msg.guild_id msg.channel_id).2
      let tr0 := [Effect.dbTrackSpam msg.author_id msg.guild_id msg.channel_id]
      if res.2 then (db2, tr0)
      else relay_resolve env db2 now st msg tr0
    else relay_resolve env db1 now st msg []

/-! ### The connect create command (InterServer.create_connection) -/

/-- The invoking context of a command. -/
structure Ctx where
  guild_id : Nat
  channel_id : Nat
  author_id : Nat
  guild_name : String
  deriving DecidableEq, Repr

/-- How the create command ends. -/
inductive CreateOutcome where
  /-- the per-server connection limit message. -/
  | quotaError
  /-- both channels on one server. -/
  | sameServerError
  /-- the bot lacks permissions in the target channel. -/
  | permError
  /-- an active connection already links the pair. -/
  | duplicateError (existing_id : Nat)
  | created (connection_id : Nat)
  deriving DecidableEq, Repr

/-- The create command, checks in source order: the quota check reads
only the invoking server's count; then same-server; then bot permissions
in the target channel; then the duplicate scan over the invoking
channel's active connections; then the INSERT. -/
def connect_create (db : DbState) (now : Nat) (ctx : Ctx)
    (target_guild_id target_channel_id : Nat) (target_guild_name : String)
    (bot_perms_ok : Bool) (name : String) :
    CreateOutcome × DbState × List Effect :=
  let current_count := get_server_connection_count db ctx.guild_id
  if Config.MAX_CONNECTIONS_PER_SERVER ≤ current_count then
    (.quotaError, db, [Effect.notifySender ctx.channel_id "Превышен лимит"])
  else if target_guild_id = ctx.guild_id then
    (.sameServerError, db,
     [Effect.notifySender ctx.channel_id "Нельзя создать соединение между каналами одного сервера"])
  else if !bot_perms_ok then
    (.permError, db,
     [Effect.notifySender ctx.channel_id "Недостаточно прав в целевом канале"])
  else
    match (get_connections_by_channel db ctx.channel_id).find? (fun conn =>
        conn.channel1_id = target_channel_id ||
        conn.channel2_id = target_channel_id) with
    | some conn =>
      (.duplicateError conn.id, db,
       [Effect.notifySender ctx.channel_id "Соединение уже существует"])
    | none =>
      let desc := "Соединение между " ++ ctx.guild_name ++ " и " ++ target_guild_name
      let r := create_connection db now ctx.guild_id ctx.channel_id
        target_guild_id target_channel_id name ctx.author_id (some desc)
      (.created r.1, r.2,
       [Effect.notifySender ctx.channel_id "Соединение создано",
        Effect.notifySender target_channel_id "Новое соединение установлено"])

/-! ## Shared concrete fixtures for the witnesses and counterexamples -/

/-- A chat platform whose sends always fail with a permission error. -/
def failEnv : Env :=
  { channelExists := fun _ => true, canSend := fun _ => true,
    sendResult := fun _ => .forbidden, md5Hex := fun _ => "d41d8cd9" }

/-- An everything-works chat platform. -/
def okEnv : Env :=
  { channelExists := fun _ => true, canSend := fun _ => true,
    sendResult := fun _ => .ok 999, md5Hex := fun _ => "d41d8cd9" }

/-- One active connection between channel 100 on server 1 and channel
200 on server 2. -/
def connAB : ConnectionRow :=
  { id := 1, server1_id := 1, channel1_id := 100,
    server2_id := 2, channel2_id := 200, connection_name := "test",
    created_at := 0, created_by := 5, is_active := true, description := none }

/-- Server 1 settings with spam protection and the profanity filter
disabled. -/
def settingsOff : ServerSettingsRow :=
  { defaultSettings 1 0 with spam_protection := false, profanity_filter := false }

/-- Store for the end-to-end scenarios: the A-B connection, server 1
with both toggles off. -/
def dbAB : DbState :=
  { emptyDb with connections := [connAB],
                 server_settings := [settingsOff],
                 next_conn_id := 2 }

/-- An ordinary human message posted in channel 100 of server 1. -/
def msgIn (content : String) : Message :=
  { id := 10, author_id := 7, author_bot := false,
    author_display_name := "u", content := content, attachments := [],
    channel_id := 100, guild_id := 1, guild_name := "G1", created_at := 0,
    is_default_type := true }

/-- Store with a single active connection and nothing else. -/
def dbOneConn : DbState :=
  { emptyDb with connections := [connAB], next_conn_id := 2 }

/-- One of ten active connections attached to server 2. -/
def quotaRow (i : Nat) : ConnectionRow :=
  { id := i, server1_id := 2, channel1_id := 1000 + i, server2_id := 100 + i,
    channel2_id := 2000 + i, connection_name := "c", created_at := 0,
    created_by := 5, is_active := true, description := none }

/-- Store in which server 2 already has MAX_CONNECTIONS_PER_SERVER
active connections while server 1 has none. -/
def dbTargetFull : DbState :=
  { emptyDb with connections := (List.range 10).map (fun i => quotaRow (i + 1)),
                 next_conn_id := 11 }

/-- An invoking context on server 1, channel 100. -/
def ctxA : Ctx :=
  { guild_id := 1, channel_id := 100, author_id := 5, guild_name := "G1" }

/-- Fold of tracker calls for the key (user 1, server 1, channel 1) at
the given timestamps, starting from the empty store. -/
def spamCallsAt (ts : List Nat) : DbState :=
  ts.foldl (fun d t => (track_message_spam d t 1 1 1).2) emptyDb

/-- Store with the A-B connection already soft-deleted. -/
def dbInactive : DbState :=
  { emptyDb with connections := [{ connAB with is_active := false }],
                 next_conn_id := 2 }

/-- Store with server 1 settings but no connections at all. -/
def dbNoConns : DbState :=
  { emptyDb with server_settings := [defaultSettings 1 0] }

/-! ## The mutating repository operations, as one inductive (for the
hard-delete invariant) -/

/-- Every mutating operation of the Database class; update keys are the
ones admin.py validates. -/
inductive DbOp where
  | opCreateConnection (now s1 c1 s2 c2 : Nat) (name : String)
      (created_by : Nat) (desc : Option String)
  | opDeleteConnection (cid : Nat)
  | opLogMessage (now omid fmid aid cid : Nat) (content_hash : Option String)
  | opCreateServerSettings (now sid : Nat)
  | opUpdateServerSetting (now sid : Nat) (u : SettingUpdate)
  | opTrackMessageSpam (now u s c : Nat)
  | opDeactivateServerConnections (sid : Nat)
  | opCleanupOldData (now days : Nat)
  deriving DecidableEq, Repr

/-- Run one mutating operation (return values dropped). -/
def applyOp (db : DbState) : DbOp → DbState
  | .opCreateConnection now s1 c1 s2 c2 name cb d =>
      (create_connection db now s1 c1 s2 c2 name cb d).2
  | .opDeleteConnection cid => (delete_connection db cid).2
  | .opLogMessage now omid fmid aid cid h =>
      log_message db now omid fmid aid cid h
  | .opCreateServerSettings now sid => create_server_settings db now sid
  | .opUpdateServerSetting now sid u => update_server_setting db now sid u
  | .opTrackMessageSpam now u s c => (track_message_spam db now u s c).2
  | .opDeactivateServerConnections sid => deactivate_server_connections db sid
  | .opCleanupOldData now days => cleanup_old_data db now days

/-- The surviving row is the original, at most with its active flag
cleared (a soft delete). -/
def rowKeepsIdentity (a b : ConnectionRow) : Prop :=
  b = a ∨ b = { a with is_active := false }

/-! ## Basic invariance lemmas -/

/-- get_server_settings only ever touches the server_settings table. -/
theorem get_server_settings_inv (db : DbState) (now sid : Nat) :
    (get_server_settings db now sid).2.connections = db.connections ∧
    (get_server_settings db now sid).2.message_history = db.message_history ∧
    (get_server_settings db now sid).2.spam_tracking = db.spam_tracking ∧
    (get_server_settings db now sid).2.next_msg_id = db.next_msg_id := by
  unfold get_server_settings
  cases db.server_settings.find? (fun r => r.server_id = sid) <;> simp

/-- track_message_spam only ever touches the spam_tracking table. -/
theorem track_message_spam_inv (db : DbState) (now u s c : Nat) :
    (track_message_spam db now u s c).2.connections = db.connections ∧
    (track_message_spam db now u s c).2.message_history = db.message_history ∧
    (track_message_spam db now u s c).2.server_settings = db.server_settings ∧
    (track_message_spam db now u s c).2.next_msg_id = db.next_msg_id := by
  simp only [track_message_spam]
  cases h : db.spam_tracking.find? (fun r => spamKeyMatch u s c r && spamLive now r) <;>
    simp only [h] <;> split <;> simp

/-- forward_message only ever touches message_history and its counter. -/
theorem forward_message_inv (env : Env) (db : DbState) (now : Nat)
    (msg : Message) (conn : ConnectionRow) :
    (forward_message env db now msg conn).1.connections = db.connections ∧
    (forward_message env db now msg conn).1.server_settings = db.server_settings ∧
    (forward_message env db now msg conn).1.spam_tracking = db.spam_tracking := by
  unfold forward_message
  cases h1 : env.channelExists (targetOf msg conn) <;>
    cases h2 : env.canSend (targetOf msg conn) <;>
    cases h3 : env.sendResult (targetOf msg conn) <;>
    simp [log_message, h1, h2, h3]

/-- The trace of one forward does not depend on the store. -/
theorem forward_message_trace_indep (env : Env) (db : DbState) (now : Nat)
    (msg : Message) (conn : ConnectionRow) :
    (forward_message env db now msg conn).2 = forward_trace env now msg conn := by
  unfold forward_trace forward_message
  cases h1 : env.channelExists (targetOf msg conn) <;>
    cases h2 : env.canSend (targetOf msg conn) <;>
    cases h3 : env.sendResult (targetOf msg conn) <;>
    simp [h1, h2, h3]

/-- forward_all only ever touches message_history and its counter. -/
theorem forward_all_inv (env : Env) (now : Nat) (msg : Message)
    (conns : List ConnectionRow) (db : DbState) :
    (forward_all env db now msg conns).1.connections = db.connections ∧
    (forward_all env db now msg conns).1.server_settings = db.server_settings ∧
    (forward_all env db now msg conns).1.spam_tracking = db.spam_tracking := by
  induction conns generalizing db with
  | nil => simp [forward_all]
  | cons conn rest ih =>
    have h1 := forward_message_inv env db now msg conn
    have h2 := ih (forward_message env db now msg conn).1
    simp only [forward_all]
    exact ⟨h2.1.trans h1.1, h2.2.1.trans h1.2.1, h2.2.2.trans h1.2.2⟩

/-- get_connections_by_channel reads only the connections table. -/
theorem get_connections_by_channel_congr {db1 db2 : DbState} (ch : Nat)
    (h : db1.connections = db2.connections) :
    get_connections_by_channel db1 ch = get_connections_by_channel db2 ch := by
  unfold get_connections_by_channel; rw [h]

/-- Every effect of the attachment loop is an operator warning. -/
theorem attachmentWarnings_shape (msg : Message) :
    ∀ e ∈ attachmentWarnings msg, ∃ s, e = Effect.warnLog s := by
  intro e he
  rcases List.mem_filterMap.mp he with ⟨a, _, hf⟩
  by_cases hs : a.size ≤ Config.MAX_FILE_SIZE <;> simp [hs] at hf
  exact ⟨_, hf.symm⟩

/-- The forward trace joins per-connection traces: one connection's
outcome never changes another connection's trace. -/
theorem forward_all_trace_join (env : Env) (now : Nat) (msg : Message) :
    ∀ (conns : List ConnectionRow) (db : DbState),
      (forward_all env db now msg conns).2 =
        (conns.map fun c => forward_trace env now msg c).flatten := by
  intro conns
  induction conns with
  | nil => intro db; simp [forward_all]
  | cons conn rest ih =>
    intro db
    simp only [forward_all, List.map_cons, List.flatten_cons]
    rw [forward_message_trace_indep, ih]

/-- Each connection is attempted at most once per inbound message: the
per-connection trace holds at most one send attempt (no retry). -/
theorem forward_trace_sendAttempts_le_one (env : Env) (now : Nat)
    (msg : Message) (conn : ConnectionRow) :
    (forward_trace env now msg conn).countP Effect.isSendAttempt ≤ 1 := by
  have hw : (attachmentWarnings msg).countP Effect.isSendAttempt = 0 := by
    rw [List.countP_eq_zero]
    intro e he
    rcases attachmentWarnings_shape msg e he with ⟨s, rfl⟩
    simp [Effect.isSendAttempt]
  unfold forward_trace forward_message
  cases h1 : env.channelExists (targetOf msg conn) <;>
    cases h2 : env.canSend (targetOf msg conn) <;>
    cases h3 : env.sendResult (targetOf msg conn) <;>
      simp [h1, h2, h3, List.countP_cons, List.countP_append, hw,
        Effect.isSendAttempt]

/-- A failed send leaves the store untouched, and the only user-visible
effect of that connection is the single attempted send itself: the
error is logged, never posted anywhere. -/
theorem forward_failure_contained (env : Env) (now : Nat) (msg : Message)
    (conn : ConnectionRow) (db : DbState)
    (hfail : (env.sendResult (targetOf msg conn)).isOk = false) :
    (forward_message env db now msg conn).1 = db ∧
    (forward_trace env now msg conn).filter Effect.isUserVisible =
      (if env.channelExists (targetOf msg conn) &&
          env.canSend (targetOf msg conn) then
        [Effect.sendAttempt (targetOf msg conn) (mkEmbed msg conn)]
      else []) := by
  have hw : (attachmentWarnings msg).filter Effect.isUserVisible = [] := by
    rw [List.filter_eq_nil_iff]
    intro e he
    rcases attachmentWarnings_shape msg e he with ⟨s, rfl⟩
    simp [Effect.isUserVisible]
  unfold forward_trace forward_message
  cases h1 : env.channelExists (targetOf msg conn) <;>
    cases h2 : env.canSend (targetOf msg conn) <;>
    cases h3 : env.sendResult (targetOf msg conn) <;>
      first
      | (simp [h1, h2, h3, SendResult.isOk, List.filter_append, hw,
          Effect.isUserVisible]; done)
      | (simp [h3, SendResult.isOk] at hfail)

/-- The relay's forward path never posts anything back to the sender. -/
theorem forward_trace_no_notify (env : Env) (now : Nat) (msg : Message)
    (conn : ConnectionRow) :
    ∀ e ∈ forward_trace env now msg conn, e.isNotifySender = false := by
  have hwn : ∀ e ∈ attachmentWarnings msg, e.isNotifySender = false := by
    intro e he
    rcases attachmentWarnings_shape msg e he with ⟨s, rfl⟩
    rfl
  unfold forward_trace forward_message
  cases h1 : env.channelExists (targetOf msg conn) <;>
    cases h2 : env.canSend (targetOf msg conn) <;>
    cases h3 : env.sendResult (targetOf msg conn) <;>
      simp [h1, h2, h3, List.forall_mem_append, List.forall_mem_cons,
        Effect.isNotifySender] <;>
      (intro e he
       rcases he with he | he
       · exact hwn e he
       · rcases he with rfl | he
         · rfl
         · rcases he with rfl | rfl <;> rfl)

/-- The whole forward loop never posts anything back to the sender. -/
theorem forward_all_no_notify (env : Env) (db : DbState) (now : Nat)
    (msg : Message) (conns : List ConnectionRow) :
    ∀ e ∈ (forward_all env db now msg conns).2, e.isNotifySender = false := by
  intro e he
  rw [forward_all_trace_join] at he
  rcases List.mem_flatten.mp he with ⟨l, hl, hel⟩
  rcases List.mem_map.mp hl with ⟨c, _, rfl⟩
  exact forward_trace_no_notify env now msg c e hel

/-- Creating a connection raises the invoking server's active count by
exactly one. -/
theorem count_after_create (db : DbState) (now : Nat)
    (s1 c1 s2 c2 : Nat) (name : String) (created_by : Nat)
    (desc : Option String) :
    get_server_connection_count
        (create_connection db now s1 c1 s2 c2 name created_by desc).2 s1 =
      get_server_connection_count db s1 + 1 := by
  unfold get_server_connection_count create_connection
  simp [List.countP_append, List.countP_cons]

/-- Maps that at most clear the active flag produce Forall₂-related
rows. -/
theorem forall2_keeps_map (l : List ConnectionRow)
    (f : ConnectionRow → ConnectionRow)
    (hf : ∀ a, f a = a ∨ f a = { a with is_active := false }) :
    List.Forall₂ rowKeepsIdentity l (l.map f) := by
  induction l with
  | nil => simp
  | cons a t ih =>
    refine List.Forall₂.cons ?_ ih
    unfold rowKeepsIdentity
    exact hf a

/-- rowKeepsIdentity is reflexive along a list. -/
theorem forall2_keeps_refl (l : List ConnectionRow) :
    List.Forall₂ rowKeepsIdentity l l := by
  refine List.forall₂_same.mpr fun x _ => ?_
  unfold rowKeepsIdentity
  exact Or.inl rfl

/-- relay_resolve never writes spam_tracking. -/
theorem relay_resolve_spam_inv (env : Env) (db : DbState) (now : Nat)
    (st : ServerSettingsRow) (msg : Message) (tr0 : List Effect) :
    (relay_resolve env db now st msg tr0).1.spam_tracking =
      db.spam_tracking := by
  simp only [relay_resolve]
  split
  · rfl
  · split
    · rfl
    · split
      · rfl
      · exact (forward_all_inv env now msg
          (get_connections_by_channel db msg.channel_id) db).2.2

/-- relay_resolve only appends to the trace it is given. -/
theorem relay_resolve_trace_ext (env : Env) (db : DbState) (now : Nat)
    (st : ServerSettingsRow) (msg : Message) (tr0 : List Effect) :
    ∃ rest, (relay_resolve env db now st msg tr0).2 = tr0 ++ rest := by
  simp only [relay_resolve]
  split
  · exact ⟨_, rfl⟩
  · split
    · exact ⟨_, rfl⟩
    · split
      · exact ⟨_, rfl⟩
      · exact ⟨_, (List.append_assoc _ _ _)⟩

/-! ## Claim theorems -/

/-- Claim C2 (code evidence): with SPAM_THRESHOLD 5 and SPAM_TIME_WINDOW
10, five calls of track_message_spam at seconds 0..4 for the key
(user 1, server 1, channel 1) return blocked on the fifth call; a sixth
call at second 20, after the window has elapsed, inserts a fresh row
with count 1 and blocked false, yet returns (5, true): the readback
SELECT carries no window filter and no ORDER BY and yields the stale
blocked row, the oldest row of the key in rowid order. -/
theorem track_spam_sixth_call_returns_stale_row :
    (track_message_spam (spamCallsAt [0, 1, 2, 3]) 4 1 1 1).1 = (5, true) ∧
    (track_message_spam (spamCallsAt [0, 1, 2, 3, 4]) 20 1 1 1).1 =
      (5, true) ∧
    (track_message_spam (spamCallsAt [0, 1, 2, 3, 4]) 20 1 1
        1).2.spam_tracking.map
        (fun r => (r.message_count, r.is_blocked, r.last_message_time)) =
      [(5, true, 4), (1, false, 20)] := by decide

/-- Claim C3 counterexample: the quota check of the create command reads
only the invoking server.  With server 2 already holding
MAX_CONNECTIONS_PER_SERVER active connections, a create invoked from
server 1 that targets server 2 succeeds and pushes server 2's
count_active_for_server to MAX_CONNECTIONS_PER_SERVER + 1. -/
theorem create_exceeds_target_quota_cex :
    get_server_connection_count dbTargetFull 2 =
      Config.MAX_CONNECTIONS_PER_SERVER ∧
    (connect_create dbTargetFull 0 ctxA 2 200 "G2" true "n").1 =
      CreateOutcome.created 11 ∧
    get_server_connection_count
        (connect_create dbTargetFull 0 ctxA 2 200 "G2" true "n").2.1 2 =
      Config.MAX_CONNECTIONS_PER_SERVER + 1 := by decide

/-- Claim C4 counterexample: the message "aaaaaaaaaaaa" classifies with
the non-empty reason set [spam pattern], yet the relay forwards it and
writes a log entry: on_message runs only the profanity and blocked-link
checks, never the spam-pattern, mass-mention or token checks. -/
theorem spam_pattern_reasons_still_forwarded_cex :
    filter_message "aaaaaaaaaaaa" true true true true =
      (false, ["Спам-паттерн"]) ∧
    (on_message okEnv dbAB 0 (msgIn "aaaaaaaaaaaa")).2.countP
        Effect.isSendSuccess = 1 ∧
    (on_message okEnv dbAB 0
        (msgIn "aaaaaaaaaaaa")).1.message_history.length = 1 := by decide

/-- Claim C5 counterexample: in the end-to-end setup (active connection
channel 100 on server 1 - channel 200 on server 2, spam protection and
profanity filter disabled), the message "bit.ly/abc" produces one send
and one MessageLogEntry, not zero: url_pattern requires an http(s)
scheme, so "bit.ly/abc" contains no URL at all. -/
theorem bitly_without_scheme_is_forwarded_cex :
    (on_message okEnv dbAB 0 (msgIn "bit.ly/abc")).2.countP
        Effect.isSendSuccess = 1 ∧
    (on_message okEnv dbAB 0 (msgIn "bit.ly/abc")).1.message_history.length =
      1 := by decide

/-- Claim C5 amended: "bit.ly/abc" matches no URL (the regular
expression requires an http(s) scheme) and is forwarded with a log
entry; the same message with the scheme, "http://bit.ly/abc", trips the
blocked-link filter and produces zero sends and zero log entries. -/
theorem bitly_scheme_dependence :
    extract_urls "bit.ly/abc" = [] ∧
    contains_blocked_links "bit.ly/abc" = false ∧
    (on_message okEnv dbAB 0 (msgIn "bit.ly/abc")).2.countP
        Effect.isSendSuccess = 1 ∧
    (on_message okEnv dbAB 0 (msgIn "bit.ly/abc")).1.message_history.length =
      1 ∧
    contains_blocked_links "http://bit.ly/abc" = true ∧
    (on_message okEnv dbAB 0 (msgIn "http://bit.ly/abc")).2.countP
        Effect.isSendAttempt = 0 ∧
    (on_message okEnv dbAB 0 (msgIn "http://bit.ly/abc")).1.message_history =
      [] := by decide

/-- Claim C7 counterexample: a second soft delete of connection 1
returns true, not false - the UPDATE's WHERE clause matches on the id
alone and SQLite counts a matched row as changed even when is_active is
already FALSE.  The state is nevertheless unchanged, the connection
stays absent from get_connection_by_id, and only a missing id yields
false. -/
theorem soft_delete_second_call_returns_true_cex :
    (delete_connection dbOneConn 1).1 = true ∧
    (delete_connection (delete_connection dbOneConn 1).2 1).1 = true ∧
    (delete_connection (delete_connection dbOneConn 1).2 1).2 =
      (delete_connection dbOneConn 1).2 ∧
    get_connection_by_id (delete_connection (delete_connection dbOneConn 1).2 1).2
      1 = none ∧
    (delete_connection dbOneConn 99).1 = false := by decide

/-- Claim C8 counterexample: with every caller flag disabled,
filter_message still reports "@everyone @everyone @everyone" as not
allowed with the mass-mention reason - that check is not gated by any
flag. -/
theorem filter_flags_all_disabled_cex :
    filter_message "@everyone @everyone @everyone" false false false false =
      (false, ["Массовые упоминания"]) := by decide

/-- Claim C6: per-connection failures are contained.  For every inbound
message resolved to multiple connections: the loop's trace is the
concatenation of per-connection traces, each depending only on its own
connection (one connection's error cannot change or suppress another's
forward); each connection receives at most one send attempt (at-most-once,
no retry); a failed send leaves the store untouched and its only
user-visible effect is the single attempted send - the error is only
logged, never posted to any channel; and the forward path never notifies
the sender. -/
theorem forward_errors_contained (env : Env) (now : Nat) (msg : Message) :
    (∀ (db : DbState) (conns : List ConnectionRow),
      (forward_all env db now msg conns).2 =
        (conns.map fun c => forward_trace env now msg c).flatten) ∧
    (∀ conn, (forward_trace env now msg conn).countP Effect.isSendAttempt ≤ 1) ∧
    (∀ conn (db : DbState),
      (env.sendResult (targetOf msg conn)).isOk = false →
      (forward_message env db now msg conn).1 = db ∧
      (forward_trace env now msg conn).filter Effect.isUserVisible =
        (if env.channelExists (targetOf msg conn) &&
            env.canSend (targetOf msg conn) then
          [Effect.sendAttempt (targetOf msg conn) (mkEmbed msg conn)]
        else [])) ∧
    (∀ conn, ∀ e ∈ forward_trace env now msg conn, e.isNotifySender = false) :=
  ⟨fun db conns => forward_all_trace_join env now msg conns db,
   fun conn => forward_trace_sendAttempts_le_one env now msg conn,
   fun conn db h => forward_failure_contained env now msg conn db h,
   fun conn => forward_trace_no_notify env now msg conn⟩

/-- Witness for C6: on a platform whose send raises a permission error,
the forward of the A-B connection leaves the store unchanged and shows
the user nothing but the attempted send. -/
theorem forward_errors_contained_w :
    (failEnv.sendResult (targetOf (msgIn "hello") connAB)).isOk = false ∧
    (forward_message failEnv dbAB 0 (msgIn "hello") connAB).1 = dbAB ∧
    (forward_trace failEnv 0 (msgIn "hello") connAB).filter
        Effect.isUserVisible =
      [Effect.sendAttempt 200 (mkEmbed (msgIn "hello") connAB)] := by
  have h := (forward_errors_contained failEnv 0 (msgIn "hello")).2.2.1 connAB
    dbAB (by decide)
  refine ⟨by decide, h.1, ?_⟩
  rw [h.2]
  decide

/-- Claim C4 amended: with connections resolved, the relay drops an
inbound message exactly when the profanity check (only if the server's
profanity filter is enabled) or the blocked-link check trips; a
non-empty reason set coming from the spam-pattern, mass-mention or
token checks does not cause a drop, because on_message never runs them;
in either case nothing is posted back to the sender. -/
theorem relay_filter_drop_condition (env : Env) (db : DbState) (now : Nat)
    (st : ServerSettingsRow) (msg : Message) (tr0 : List Effect)
    (hconns : get_connections_by_channel db msg.channel_id ≠ []) :
    (relay_resolve env db now st msg tr0 =
      (if st.profanity_filter &&
            contains_profanity Config.PROFANITY_WORDS msg.content
          || contains_blocked_links msg.content then
        (db, tr0 ++ [Effect.dbGetConnections msg.channel_id])
      else
        ((forward_all env db now msg
            (get_connections_by_channel db msg.channel_id)).1,
         (tr0 ++ [Effect.dbGetConnections msg.channel_id]) ++
           (forward_all env db now msg
             (get_connections_by_channel db msg.channel_id)).2))) ∧
    (∀ e ∈ (relay_resolve env db now st msg tr0).2,
      e.isNotifySender = true → e ∈ tr0) := by
  have hE : (get_connections_by_channel db msg.channel_id).isEmpty = false :=
    List.isEmpty_eq_false.mpr hconns
  have h1 : relay_resolve env db now st msg tr0 =
      (if st.profanity_filter &&
            contains_profanity Config.PROFANITY_WORDS msg.content
          || contains_blocked_links msg.content then
        (db, tr0 ++ [Effect.dbGetConnections msg.channel_id])
      else
        ((forward_all env db now msg
            (get_connections_by_channel db msg.channel_id)).1,
         (tr0 ++ [Effect.dbGetConnections msg.channel_id]) ++
           (forward_all env db now msg
             (get_connections_by_channel db msg.channel_id)).2)) := by
    unfold relay_resolve
    cases hp : st.profanity_filter &&
        contains_profanity Config.PROFANITY_WORDS msg.content <;>
      cases hb : contains_blocked_links msg.content <;>
        simp [hE, hp, hb]
  refine ⟨h1, ?_⟩
  intro e he hne
  rw [h1] at he
  by_cases hc : (st.profanity_filter &&
      contains_profanity Config.PROFANITY_WORDS msg.content
    || contains_blocked_links msg.content) = true
  · simp only [hc, if_true] at he
    rcases List.mem_append.mp he with he | he
    · exact he
    · simp at he
      subst he
      simp [Effect.isNotifySender] at hne
  · simp only [Bool.not_eq_true] at hc
    simp only [hc, Bool.false_eq_true, if_false] at he
    rcases List.mem_append.mp he with he | he
    · rcases List.mem_append.mp he with he | he
      · exact he
      · simp at he
        subst he
        simp [Effect.isNotifySender] at hne
    · rw [forward_all_no_notify env db now msg _ e he] at hne
      simp at hne

/-- Witness for C4 amended: in the concrete spam-pattern scenario the
condition is false and the message goes to the forward loop. -/
theorem relay_filter_drop_condition_w :
    get_connections_by_channel dbAB 100 ≠ [] ∧
    relay_resolve okEnv dbAB 0 settingsOff (msgIn "aaaaaaaaaaaa") [] =
      ((forward_all okEnv dbAB 0 (msgIn "aaaaaaaaaaaa")
          (get_connections_by_channel dbAB 100)).1,
       [Effect.dbGetConnections 100] ++
         (forward_all okEnv dbAB 0 (msgIn "aaaaaaaaaaaa")
           (get_connections_by_channel dbAB 100)).2) := by
  have hne : get_connections_by_channel dbAB 100 ≠ [] := by decide
  have h := (relay_filter_drop_condition okEnv dbAB 0 settingsOff
    (msgIn "aaaaaaaaaaaa") [] hne).1
  refine ⟨hne, ?_⟩
  rw [h]
  decide

/-- Claim C3 amended: the create command's quota check reads only the
invoking server: it reports the quota error exactly when the invoking
server already holds MAX_CONNECTIONS_PER_SERVER active connections, and
a successful create raises the invoking server's count by one, keeping
it within the limit.  The target server is never checked, and its count
can exceed the limit (see the counterexample). -/
theorem connect_create_quota_source_only (db : DbState) (now : Nat)
    (ctx : Ctx) (tguild tchannel : Nat) (tname : String) (perms : Bool)
    (name : String) :
    ((connect_create db now ctx tguild tchannel tname perms name).1 =
        CreateOutcome.quotaError ↔
      Config.MAX_CONNECTIONS_PER_SERVER ≤
        get_server_connection_count db ctx.guild_id) ∧
    (∀ cid,
      (connect_create db now ctx tguild tchannel tname perms name).1 =
          CreateOutcome.created cid →
      get_server_connection_count
          (connect_create db now ctx tguild tchannel tname perms name).2.1
          ctx.guild_id =
        get_server_connection_count db ctx.guild_id + 1 ∧
      get_server_connection_count
          (connect_create db now ctx tguild tchannel tname perms name).2.1
          ctx.guild_id ≤ Config.MAX_CONNECTIONS_PER_SERVER) := by
  unfold connect_create
  by_cases hq : Config.MAX_CONNECTIONS_PER_SERVER ≤
      get_server_connection_count db ctx.guild_id
  · simp [hq]
  · by_cases hs : tguild = ctx.guild_id
    · simp [hq, hs]
    · by_cases hp : perms
      · cases hf : (get_connections_by_channel db ctx.channel_id).find?
            (fun conn => conn.channel1_id = tchannel ||
              conn.channel2_id = tchannel) with
        | some conn => simp [hq, hs, hp, hf]
        | none =>
          simp only [Config.MAX_CONNECTIONS_PER_SERVER] at hq
          simp [hq, hs, hp, hf, count_after_create,
            Config.MAX_CONNECTIONS_PER_SERVER]
          omega
      · simp [hq, hs, hp]

/-- Witness for C3 amended: a create on the empty store succeeds and
leaves the invoking server with one active connection. -/
theorem connect_create_quota_source_only_w :
    (connect_create emptyDb 0 ctxA 2 200 "G2" true "n").1 =
      CreateOutcome.created 1 ∧
    get_server_connection_count
        (connect_create emptyDb 0 ctxA 2 200 "G2" true "n").2.1 1 = 1 := by
  have h := ((connect_create_quota_source_only emptyDb 0 ctxA 2 200 "G2"
    true "n").2 1 (by decide)).1
  refine ⟨by decide, ?_⟩
  have hg : ctxA.guild_id = 1 := rfl
  rw [hg] at h
  rw [h]
  decide

/-- Claim C7 amended: soft delete is idempotent in state - on a store
where every row with the given id is already inactive (a second call,
or a call on a missing id), delete_connection changes nothing and the
connection stays absent from get_connection_by_id and
get_connections_by_channel; but its return value is true whenever a row
with that id exists, active or not, and false only for a missing id. -/
theorem soft_delete_inactive_noop (db : DbState) (cid : Nat)
    (h : ∀ r ∈ db.connections, r.id = cid → r.is_active = false) :
    (delete_connection db cid).2 = db ∧
    (delete_connection db cid).1 =
      db.connections.any (fun r => r.id = cid) ∧
    get_connection_by_id (delete_connection db cid).2 cid = none ∧
    (∀ ch, ∀ r ∈ get_connections_by_channel (delete_connection db cid).2 ch,
      r.id ≠ cid) := by
  have hmap : ∀ (l : List ConnectionRow),
      (∀ r ∈ l, r.id = cid → r.is_active = false) →
      l.map (fun r =>
        if r.id = cid then { r with is_active := false } else r) = l := by
    intro l hl
    induction l with
    | nil => rfl
    | cons a t ih =>
      simp only [List.map_cons]
      rw [ih fun r hr => hl r (List.mem_cons_of_mem _ hr)]
      have ha := hl a (List.mem_cons_self a t)
      by_cases hid : a.id = cid
      · cases a
        simp_all
      · simp [hid]
  have hdb : (delete_connection db cid).2 = db := by
    unfold delete_connection
    simp only
    rw [hmap db.connections h]
  refine ⟨hdb, ?_, ?_, ?_⟩
  · unfold delete_connection
    simp only
    cases hA : db.connections.any (fun r => r.id = cid) with
    | false =>
      have hz : db.connections.countP (fun r => decide (r.id = cid)) = 0 :=
        List.countP_eq_zero.mpr fun a ha => by
          simpa using List.any_eq_false.mp hA a ha
      simp [hz]
    | true =>
      rcases List.any_eq_true.mp hA with ⟨a, ha, hpa⟩
      have hp : 0 < db.connections.countP (fun r => decide (r.id = cid)) :=
        List.countP_pos_iff.mpr ⟨a, ha, hpa⟩
      simp [hp]
  · rw [hdb]
    unfold get_connection_by_id
    rw [List.find?_eq_none]
    intro r hr
    simp only [Bool.and_eq_true, decide_eq_true_eq, not_and]
    intro hid
    rw [h r hr hid]
    simp
  · intro ch r hr
    rw [hdb] at hr
    unfold get_connections_by_channel at hr
    have hp := (List.mem_filter.mp hr).2
    have hm := (List.mem_filter.mp hr).1
    simp only [Bool.and_eq_true] at hp
    intro hid
    rw [h r hm hid] at hp
    simp at hp

/-- Witness for C7 amended: the concrete already-inactive store. -/
theorem soft_delete_inactive_noop_w :
    (∀ r ∈ dbInactive.connections, r.id = 1 → r.is_active = false) ∧
    (delete_connection dbInactive 1).2 = dbInactive ∧
    (delete_connection dbInactive 1).1 = true := by
  have hh : ∀ r ∈ dbInactive.connections, r.id = 1 → r.is_active = false := by
    decide
  have h := soft_delete_inactive_noop dbInactive 1 hh
  refine ⟨hh, h.1, ?_⟩
  rw [h.2.1]
  decide

/-- Claim C8 amended: the profanity, link, spam and token checks run
exactly when their flags are enabled, but the mass-mention check is not
gated by any flag: with every flag disabled the classification of a
text is allowed precisely when it carries fewer than three mass
mentions, and each flagged check's reason never appears while its flag
is off. -/
theorem filter_message_flag_gating :
    (∀ text, filter_message text false false false false =
      (if contains_mass_mentions text 3 then (false, ["Массовые упоминания"])
       else (true, []))) ∧
    (∀ text cp cl cs ct,
      (cp = false →
        "Нецензурная лексика" ∉ (filter_message text cp cl cs ct).2) ∧
      (cl = false →
        "Подозрительные ссылки" ∉ (filter_message text cp cl cs ct).2) ∧
      (cs = false → "Спам-паттерн" ∉ (filter_message text cp cl cs ct).2) ∧
      (ct = false → "Discord токен" ∉ (filter_message text cp cl cs ct).2)) := by
  constructor
  · intro text
    unfold filter_message
    by_cases h0 : text = ""
    · subst h0
      simp [contains_mass_mentions]
    · simp only [h0, if_false]
      cases hm : contains_mass_mentions text 3 <;> simp [hm]
  · intro text cp cl cs ct
    unfold filter_message
    by_cases h0 : text = ""
    · subst h0
      simp
    · refine ⟨?_, ?_, ?_, ?_⟩ <;> rintro rfl <;>
        simp only [h0, if_false, Bool.false_and, Bool.false_eq_true] <;>
        split_ifs <;> simp_all

/-- Witness for C8 amended: the spam-pattern reason never appears when
check_spam is off, here on the repeated-character text. -/
theorem filter_message_flag_gating_w :
    "Спам-паттерн" ∉ (filter_message "aaaaaaaaaaaa" true true false true).2 :=
  (filter_message_flag_gating.2 "aaaaaaaaaaaa" true true false true).2.2.1 rfl

/-- Claim C9: no repository operation removes a row from the
connections table - each surviving prefix row is the original with at
most its active flag cleared (soft deletes only) - nor from
message_history; and the retention sweep cleanup_old_data deletes only
spam_tracking rows, leaving connections, message_history and
server_settings exactly unchanged. -/
theorem db_ops_never_remove_rows (db : DbState) (op : DbOp) :
    List.Forall₂ rowKeepsIdentity db.connections
      ((applyOp db op).connections.take db.connections.length) ∧
    (applyOp db op).message_history.take db.message_history.length =
      db.message_history ∧
    (∀ now days,
      (applyOp db (DbOp.opCleanupOldData now days)).connections =
        db.connections ∧
      (applyOp db (DbOp.opCleanupOldData now days)).message_history =
        db.message_history ∧
      (applyOp db (DbOp.opCleanupOldData now days)).server_settings =
        db.server_settings) := by
  have hclean : ∀ now days,
      (applyOp db (DbOp.opCleanupOldData now days)).connections =
        db.connections ∧
      (applyOp db (DbOp.opCleanupOldData now days)).message_history =
        db.message_history ∧
      (applyOp db (DbOp.opCleanupOldData now days)).server_settings =
        db.server_settings := by
    intro now days
    simp [applyOp, cleanup_old_data]
  have htake : ∀ (l : List ConnectionRow)
      (f : ConnectionRow → ConnectionRow),
      (l.map f).take l.length = l.map f := by
    intro l f
    rw [← List.length_map l f, List.take_length]
  refine ⟨?_, ?_, hclean⟩
  · cases op with
    | opCreateConnection now s1 c1 s2 c2 name cb d =>
      simp only [applyOp, create_connection]
      rw [List.take_left]
      exact forall2_keeps_refl _
    | opDeleteConnection cid =>
      simp only [applyOp, delete_connection]
      rw [htake]
      refine forall2_keeps_map _ _ fun a => ?_
      by_cases hid : a.id = cid <;> simp [hid]
    | opDeactivateServerConnections sid =>
      simp only [applyOp, deactivate_server_connections]
      rw [htake]
      refine forall2_keeps_map _ _ fun a => ?_
      by_cases hid : a.server1_id = sid || a.server2_id = sid <;> simp [hid]
    | opTrackMessageSpam now u s c =>
      rw [show (applyOp db (DbOp.opTrackMessageSpam now u s c)).connections =
        db.connections from (track_message_spam_inv db now u s c).1]
      rw [List.take_length]
      exact forall2_keeps_refl _
    | opLogMessage now omid fmid aid cid h =>
      simp only [applyOp, log_message]
      rw [List.take_length]
      exact forall2_keeps_refl _
    | opCreateServerSettings now sid =>
      simp only [applyOp, create_server_settings]
      split <;> (rw [List.take_length]; exact forall2_keeps_refl _)
    | opUpdateServerSetting now sid u =>
      simp only [applyOp, update_server_setting]
      rw [List.take_length]
      exact forall2_keeps_refl _
    | opCleanupOldData now days =>
      rw [(hclean now days).1, List.take_length]
      exact forall2_keeps_refl _
  · cases op with
    | opCreateConnection now s1 c1 s2 c2 name cb d =>
      simp only [applyOp, create_connection]
      exact List.take_length _
    | opDeleteConnection cid =>
      simp only [applyOp, delete_connection]
      exact List.take_length _
    | opDeactivateServerConnections sid =>
      simp only [applyOp, deactivate_server_connections]
      exact List.take_length _
    | opTrackMessageSpam now u s c =>
      rw [show (applyOp db (DbOp.opTrackMessageSpam now u s c)).message_history =
        db.message_history from (track_message_spam_inv db now u s c).2.1]
      exact List.take_length _
    | opLogMessage now omid fmid aid cid h =>
      simp only [applyOp, log_message]
      exact List.take_left _ _
    | opCreateServerSettings now sid =>
      simp only [applyOp, create_server_settings]
      split <;> exact List.take_length _
    | opUpdateServerSetting now sid u =>
      simp only [applyOp, update_server_setting]
      exact List.take_length _
    | opCleanupOldData now days =>
      rw [(hclean now days).2.1]
      exact List.take_length _

/-- Claim C10: for an inbound non-bot default-type non-command message
on an enabled server with spam protection on, the spam counter update
is the first effect of the pipeline - it happens before connections are
looked up - and the resulting spam_tracking state is exactly the
tracker's, whatever connections (including none) the channel has. -/
theorem spam_tracked_before_connection_lookup (env : Env) (db : DbState)
    (now : Nat) (msg : Message)
    (hbot : msg.author_bot = false)
    (htype : msg.is_default_type = true)
    (hpre : strStartsWith msg.content Config.cmd_pfx = false)
    (henabled : (get_server_settings db now msg.guild_id).1.enabled = true)
    (hspam :
      (get_server_settings db now msg.guild_id).1.spam_protection = true) :
    ((on_message env db now msg).2.head? =
      some (Effect.dbTrackSpam msg.author_id msg.guild_id msg.channel_id)) ∧
    ((on_message env db now msg).1.spam_tracking =
      (track_message_spam (get_server_settings db now msg.guild_id).2 now
        msg.author_id msg.guild_id msg.channel_id).2.spam_tracking) := by
  unfold on_message
  simp only [hbot, htype, hpre, henabled, hspam, Bool.false_or, Bool.not_true,
    Bool.false_eq_true, if_false, if_true]
  cases hres : ((track_message_spam (get_server_settings db now msg.guild_id).2
      now msg.author_id msg.guild_id msg.channel_id).1).2 with
  | true => simp [hres]
  | false =>
    simp only [hres, Bool.false_eq_true, if_false]
    constructor
    · rcases relay_resolve_trace_ext env
        (track_message_spam (get_server_settings db now msg.guild_id).2 now
          msg.author_id msg.guild_id msg.channel_id).2 now
        (get_server_settings db now msg.guild_id).1 msg
        [Effect.dbTrackSpam msg.author_id msg.guild_id msg.channel_id]
        with ⟨rest, hr⟩
      rw [hr]
      simp
    · exact relay_resolve_spam_inv env _ now _ msg _

/-- Witness for C10: a concrete store with no connections at all; the
claim theorem applies, and five such messages in the window leave the
key blocked - the counter accrues although nothing is ever forwarded. -/
theorem spam_tracked_before_connection_lookup_w :
    ((on_message okEnv dbNoConns 0 (msgIn "hello")).2.head? =
      some (Effect.dbTrackSpam 7 1 100)) ∧
    get_connections_by_channel dbNoConns 100 = [] ∧
    ((List.range 5).foldl
        (fun d t => (on_message okEnv d t (msgIn "hello")).1)
        dbNoConns).spam_tracking.map
      (fun r => (r.message_count, r.is_blocked)) = [(5, true)] := by
  have h := spam_tracked_before_connection_lookup okEnv dbNoConns 0
    (msgIn "hello") rfl rfl (by decide) (by decide) (by decide)
  exact ⟨h.1, by decide, by decide⟩

/-- Claim C1: forwarding a message with text "hi" and one 100-byte
attachment through a channel with exactly one active connection, on an
enabled server whose spam tracker does not block and with the send
succeeding, produces exactly one forwarded message (one send success)
and appends exactly one MessageLogEntry whose content hash is non-null.
(The attachment itself is dropped with only an operator warning - the
missing io import makes the re-upload raise inside the per-attachment
try - but the message and its log entry still go through.) -/
theorem relay_roundtrip_hi (env : Env) (db : DbState) (now : Nat)
    (msg : Message) (att : Attachment) (conn : ConnectionRow) (fid : Nat)
    (hbot : msg.author_bot = false)
    (htype : msg.is_default_type = true)
    (hcontent : msg.content = "hi")
    (hatt : msg.attachments = [att])
    (hsize : att.size = 100)
    (henabled : (get_server_settings db now msg.guild_id).1.enabled = true)
    (hspamon :
      (get_server_settings db now msg.guild_id).1.spam_protection = true)
    (hnotblocked :
      ((track_message_spam (get_server_settings db now msg.guild_id).2 now
        msg.author_id msg.guild_id msg.channel_id).1).2 = false)
    (hconns : get_connections_by_channel db msg.channel_id = [conn])
    (hex : env.channelExists (targetOf msg conn) = true)
    (hperm : env.canSend (targetOf msg conn) = true)
    (hsend : env.sendResult (targetOf msg conn) = SendResult.ok fid) :
    ((on_message env db now msg).2.countP Effect.isSendSuccess = 1) ∧
    ((on_message env db now msg).1.message_history =
      db.message_history ++
        [{ id := db.next_msg_id, original_message_id := msg.id,
           forwarded_message_id := fid, author_id := msg.author_id,
           connection_id := conn.id, timestamp := now,
           content_hash := some (env.md5Hex "hi") }]) ∧
    some (env.md5Hex "hi") ≠ none := by
  have hpre : strStartsWith msg.content Config.cmd_pfx = false := by
    rw [hcontent]; decide
  have hprof : contains_profanity Config.PROFANITY_WORDS msg.content =
      false := by
    rw [hcontent]; decide
  have hlink : contains_blocked_links msg.content = false := by
    rw [hcontent]; decide
  have hwarns : attachmentWarnings msg =
      [Effect.warnLog ("Не удалось прочитать файл " ++ att.filename)] := by
    unfold attachmentWarnings
    rw [hatt]
    simp [hsize, Config.MAX_FILE_SIZE]
  have hS := get_server_settings_inv db now msg.guild_id
  have hT := track_message_spam_inv (get_server_settings db now msg.guild_id).2
    now msg.author_id msg.guild_id msg.channel_id
  set db2 := (track_message_spam (get_server_settings db now msg.guild_id).2
    now msg.author_id msg.guild_id msg.channel_id).2 with hdb2
  have hdb2conn : db2.connections = db.connections := hT.1.trans hS.1
  have hdb2hist : db2.message_history = db.message_history :=
    hT.2.1.trans hS.2.1
  have hdb2next : db2.next_msg_id = db.next_msg_id :=
    hT.2.2.2.trans hS.2.2.2
  have hconns2 : get_connections_by_channel db2 msg.channel_id = [conn] := by
    rw [get_connections_by_channel_congr msg.channel_id hdb2conn]
    exact hconns
  have hfwd : forward_message env db2 now msg conn =
      (log_message db2 now msg.id fid msg.author_id conn.id
        (some (env.md5Hex "hi")),
       [Effect.warnLog ("Не удалось прочитать файл " ++ att.filename),
        Effect.sendAttempt (targetOf msg conn) (mkEmbed msg conn),
        Effect.sendSuccess (targetOf msg conn) fid,
        Effect.logWrite conn.id (some (env.md5Hex "hi"))]) := by
    unfold forward_message
    simp [hex, hperm, hsend, hwarns, hcontent]
  have hrun : on_message env db now msg =
      ((forward_message env db2 now msg conn).1,
       [Effect.dbTrackSpam msg.author_id msg.guild_id msg.channel_id,
        Effect.dbGetConnections msg.channel_id] ++
         (forward_message env db2 now msg conn).2) := by
    unfold on_message
    simp only [hbot, htype, hpre, henabled, hspamon, Bool.false_or,
      Bool.not_true, Bool.false_eq_true, if_false, if_true]
    simp only [← hdb2, hnotblocked, Bool.false_eq_true, if_false]
    unfold relay_resolve
    simp [hconns2, hprof, hlink, forward_all]
  refine ⟨?_, ?_, by simp⟩
  · rw [hrun, hfwd]
    simp [Effect.isSendSuccess, List.countP_cons, List.countP_append]
  · rw [hrun, hfwd]
    simp only [log_message]
    rw [hdb2hist, hdb2next]

/-- Witness for C1: the concrete round trip of "hi" with one 100-byte
attachment over the A-B connection with default settings. -/
theorem relay_roundtrip_hi_w :
    let msgHi : Message :=
      { msgIn "hi" with attachments := [{ size := 100, filename := "a.png" }] }
    let dbOn : DbState :=
      { emptyDb with connections := [connAB],
                     server_settings := [defaultSettings 1 0],
                     next_conn_id := 2 }
    ((on_message okEnv dbOn 0 msgHi).2.countP Effect.isSendSuccess = 1) ∧
    ((on_message okEnv dbOn 0 msgHi).1.message_history =
      [{ id := 1, original_message_id := 10, forwarded_message_id := 999,
         author_id := 7, connection_id := 1, timestamp := 0,
         content_hash := some (okEnv.md5Hex "hi") }]) := by
  intro msgHi dbOn
  have h := relay_roundtrip_hi okEnv dbOn 0 msgHi
    { size := 100, filename := "a.png" } connAB 999
    rfl rfl rfl rfl rfl (by decide) (by decide) (by decide) (by decide)
    (by decide) (by decide) (by decide)
  exact ⟨h.1, h.2.1⟩

end InterBot
